import Mathlib

/-!
# Verification of the artham.live Order Management System core

Shallow embedding of the OMS pipeline services:

* `order_02_command_service.py` — command validator (`validate_command`, per-message loop body)
* `order_03_risk_manager.py` — risk gate (`validate_risk`, per-message loop body)
* `order_04_state_manager.py` — bracket state machine (`create_bracket`,
  `mark_entry_filled`, `handle_entry_hit`, `place_exit_orders`, `execute_exit`,
  `handle_order_update`, `process_state_command`, `process_state_commands`)
* `order_05_execution_engine.py` — tick evaluator (`evaluate_exits_for_tick`)
* `order_01_broker_adapter.py` — order-update payloads emitted by `place_broker_order`

Modelling conventions:

* Redis hashes keyed by id become association lists (`getEntry`/`setEntry`);
  Redis sets become `List String` with `sadd`/`srem` (membership is what matters).
* Python `float` values are modelled as `ℚ`: every price in the pipeline is
  parsed from a decimal string and only compared/multiplied, never rounded.
* A Redis hash field that is absent or the empty string is `none`; a present
  value is `some v` (Redis with `decode_responses` stores every field as a
  string; Python truthiness of such a field is exactly "non-empty").
* Wall-clock data (`created_at`, `updated_at`, timestamps inside
  `state_transitions`, uuid generation) is opaque to every branch decision in
  the source, so timestamps are dropped: `state_transitions` is the list of
  state names in append order, and generated uuids are passed as parameters.
* `stdout` prints and Prometheus metric bumps are dropped; log calls that the
  spec talks about (warnings/errors) are kept as effects.
-/

namespace OMS

/-- Python's `str.upper()` on the ASCII enum/status strings the services
compare (a kernel-reducible model of `.upper()`). -/
def pyUpper (s : String) : String := String.mk (s.data.map Char.toUpper)

/-- Decimal digits to a number; `none` on an empty or non-digit string. -/
def digitsToNat (cs : List Char) : Option Nat :=
  if cs = [] then none
  else cs.foldl (fun acc? c => acc?.bind fun acc =>
    if c.isDigit then some (acc * 10 + (c.toNat - 48)) else none) (some 0)

/-- Python's `int(...)` on a stream string (kernel-reducible model, covering
the optionally-`-`-signed decimal forms the pipeline carries; anything else —
floats, text — raises, i.e. `none`). -/
def pyInt (s : String) : Option Int :=
  match s.data with
  | '-' :: rest => (digitsToNat rest).map (fun n => -(n : Int))
  | cs => (digitsToNat cs).map (fun n => (n : Int))

/-- Association-list read, modelling `HGETALL`/`HGET` on a keyed Redis hash. -/
def getEntry (k : String) : List (String × β) → Option β
  | [] => none
  | (k0, v0) :: rest => if k0 = k then some v0 else getEntry k rest

/-- Association-list write, modelling a full-record `HSET` on a keyed Redis hash. -/
def setEntry (k : String) (v : β) : List (String × β) → List (String × β)
  | [] => [(k, v)]
  | (k0, v0) :: rest => if k0 = k then (k, v) :: rest else (k0, v0) :: setEntry k v rest

/-- `SADD member`: Redis set membership add. -/
def sadd (x : String) (l : List String) : List String :=
  if x ∈ l then l else l ++ [x]

/-- `SREM member`: Redis set membership remove. -/
def srem (x : String) (l : List String) : List String :=
  l.filter (fun y => y ≠ x)

/-- `SADD` on the keyed set `oms:active:instrument:{k}` / `oms:active:strategy:{k}`
(Redis creates the key if missing). -/
def saddKeyed (k x : String) (l : List (String × List String)) : List (String × List String) :=
  setEntry k (sadd x ((getEntry k l).getD [])) l

/-- `SREM` on a keyed set (Redis is a no-op when the key is missing). -/
def sremKeyed (k x : String) (l : List (String × List String)) : List (String × List String) :=
  match getEntry k l with
  | none => l
  | some s => setEntry k (srem x s) l

@[simp] theorem getEntry_setEntry_self (k : String) (v : β) (l : List (String × β)) :
    getEntry k (setEntry k v l) = some v := by
  induction l with
  | nil => simp [getEntry, setEntry]
  | cons hd tl ih =>
    obtain ⟨k0, v0⟩ := hd
    by_cases h : k0 = k
    · simp [getEntry, setEntry, h]
    · simp [getEntry, setEntry, h, ih]

@[simp] theorem getEntry_setEntry_ne (k k' : String) (v : β) (l : List (String × β))
    (h : k' ≠ k) : getEntry k' (setEntry k v l) = getEntry k' l := by
  induction l with
  | nil => simp [getEntry, setEntry, Ne.symm h]
  | cons hd tl ih =>
    obtain ⟨k0, v0⟩ := hd
    by_cases hk : k0 = k
    · subst hk
      simp [getEntry, setEntry, Ne.symm h, h]
    · by_cases hk' : k0 = k'
      · subst hk'
        simp [getEntry, setEntry, hk, h]
      · simp [getEntry, setEntry, hk, hk', ih]

@[simp] theorem mem_srem_self (x : String) (l : List String) : x ∉ srem x l := by
  simp [srem]

theorem mem_srem_of_ne (x y : String) (l : List String) (h : y ≠ x) :
    (y ∈ srem x l) ↔ y ∈ l := by
  simp [srem, h]

/-! ## Data model (§3 of the spec, as persisted by `order_04_state_manager.py`) -/

/-- The `oms:bracket:{bracket_id}` hash written by the State Manager.
`state_transitions` keeps the state names of the append-only transition log
(`update_state_transitions` in the source; wall-clock timestamps omitted).
`filled_entry_price` / `filled_qty` / `remaining_qty` are absent (`none`)
until an entry fill is recorded.  `created_at` / `updated_at` and the
entry/target/stop time-window strings are wall-clock data dropped from the
model (no branch in the services reads them). -/
structure Bracket where
  bracket_id : String
  strategy_id : String
  instrument_id : String
  symbol : String
  exchange : String
  side : String
  qty : Int
  entry_order_id : String
  target_order_id : String
  stoploss_order_id : String
  entry_price : ℚ
  target_price : ℚ
  stoploss_price : ℚ
  filled_entry_price : Option ℚ
  filled_qty : Option Int
  remaining_qty : Option Int
  state : String
  state_transitions : List String
deriving DecidableEq

/-- The `oms:order:{order_id}` child-order hash. `price`, `trigger_price`,
`filled_price`, `filled_qty`, `broker_order_id` use `none` for the empty-string
fields the source writes before they are known. -/
structure ChildOrder where
  order_id : String
  bracket_id : String
  instrument_id : String
  symbol : String
  exchange : String
  side : String
  qty : Int
  order_type : String
  price : Option ℚ
  trigger_price : Option ℚ
  state : String
  filled_price : Option ℚ
  filled_qty : Option Int
  broker_order_id : Option String
deriving DecidableEq

/-- A Redis `HSET` on a missing `oms:order:{id}` key creates the hash with only
the written fields; every other field then reads back as absent.  This is the
record such an `HSET` starts from. -/
def ChildOrder.blank (oid : String) : ChildOrder :=
  { order_id := oid, bracket_id := "", instrument_id := "", symbol := "", exchange := ""
    side := "", qty := 0, order_type := "", price := none, trigger_price := none
    state := "", filled_price := none, filled_qty := none, broker_order_id := none }

/-- Same for `oms:bracket:{id}`. -/
def Bracket.blank (bid : String) : Bracket :=
  { bracket_id := bid, strategy_id := "", instrument_id := "", symbol := "", exchange := ""
    side := "", qty := 0, entry_order_id := "", target_order_id := "", stoploss_order_id := ""
    entry_price := 0, target_price := 0, stoploss_price := 0
    filled_entry_price := none, filled_qty := none, remaining_qty := none
    state := "", state_transitions := [] }

/-- The persisted state layout of §6: bracket records, child-order records, the
three active-index sets, and the broker-order-id mapping — all mutated only by
the State Manager. -/
structure Store where
  brackets : List (String × Bracket)
  orders : List (String × ChildOrder)
  activeBrackets : List String
  activeByInstrument : List (String × List String)
  activeByStrategy : List (String × List String)
  brokerOrderMapping : List (String × String)
deriving DecidableEq

/-- `HSET oms:bracket:{id}` with a partial mapping: the update function is
applied to the stored record, or to the all-absent blank record when the key
does not exist yet (Redis hash-create semantics). -/
def Store.hsetBracket (s : Store) (bid : String) (f : Bracket → Bracket) : Store :=
  { s with brackets := setEntry bid (f ((getEntry bid s.brackets).getD (Bracket.blank bid))) s.brackets }

/-- `HSET oms:order:{id}` with a partial mapping (see `Store.hsetBracket`). -/
def Store.hsetOrder (s : Store) (oid : String) (f : ChildOrder → ChildOrder) : Store :=
  { s with orders := setEntry oid (f ((getEntry oid s.orders).getD (ChildOrder.blank oid))) s.orders }

/-! ## Effects

Every externally visible side effect of a handler: published lifecycle events,
broker commands, command responses, and the log lines the spec talks about. -/

/-- A field value inside an event's `details` dict or a broker-command payload. -/
inductive Val where
  | str (s : String)
  | int (i : Int)
  | rat (q : ℚ)
deriving DecidableEq

/-- The `details` payload of a published event (`json.dumps(details or {})` in
the source): either a small literal dict, or the full bracket/order record the
source passes (`details=bracket`, `details=entry_order`, ...). -/
inductive Details where
  | kv (l : List (String × Val))
  | ofBracket (b : Bracket)
  | ofOrder (o : ChildOrder)
deriving DecidableEq

/-- An entry published to the `order.events` stream by `publish_event`. -/
structure Event where
  event_type : String
  bracket_id : String
  order_id : String
  details : Details
deriving DecidableEq

/-- An entry published to the `broker.commands` stream by `publish_broker_command`. -/
structure BrokerCommand where
  command : String
  fields : List (String × Val)
deriving DecidableEq

/-- An entry published to the `command.responses` stream by `send_response`. -/
structure CommandResponse where
  request_id : String
  success : Bool
  message : String
  data : List (String × Val)
deriving DecidableEq

/-- One observable side effect of a State Manager handler. -/
inductive Eff where
  | event (e : Event)
  | brokerCmd (c : BrokerCommand)
  | response (r : CommandResponse)
  | logWarning (msg : String)
  | logError (msg : String)
  | logInfo (msg : String)
deriving DecidableEq

/-- `send_response` returns without publishing when `request_id` is falsy. -/
def sendResponse (request_id : String) (success : Bool) (message : String)
    (data : List (String × Val)) : List Eff :=
  if request_id = "" then []
  else [Eff.response { request_id := request_id, success := success, message := message, data := data }]

/-! ## State Manager handlers (`order_04_state_manager.py`) -/

/-- `mark_entry_filled(bracket, fill_price, actual_filled_qty)`: marks the entry
order `FILLED`, records `filled_qty`/`remaining_qty` on the bracket, appends
`ENTRY_FILLED` to the transition log, logs a partial-fill warning when
`remaining_qty > 0`, and publishes `ENTRY_FILLED`.  `actual_filled_qty = none`
is the source's `None` default (full fill assumed). -/
def markEntryFilled (s : Store) (bracket : Bracket) (fill_price : ℚ)
    (actual_filled_qty : Option Int) : Store × List Eff :=
  let bracket_id := bracket.bracket_id
  let entry_order_id := bracket.entry_order_id
  let original_qty := bracket.qty
  let filled_qty := actual_filled_qty.getD original_qty
  let remaining_qty := original_qty - filled_qty
  let s := s.hsetOrder entry_order_id (fun o =>
    { o with state := "FILLED", filled_price := some fill_price, filled_qty := some filled_qty })
  let new_state := "ENTRY_FILLED"
  let state_transitions := bracket.state_transitions ++ [new_state]
  let s := s.hsetBracket bracket_id (fun b =>
    { b with state := new_state, state_transitions := state_transitions
             filled_entry_price := some fill_price, filled_qty := some filled_qty
             remaining_qty := some remaining_qty })
  let warnEffs : List Eff :=
    if remaining_qty > 0 then
      [Eff.logWarning ("Partial fill detected for bracket " ++ bracket_id ++ ": filled "
        ++ toString filled_qty ++ "/" ++ toString original_qty
        ++ ", remaining " ++ toString remaining_qty)]
    else []
  (s, warnEffs ++
    [Eff.event { event_type := "ENTRY_FILLED", bracket_id := bracket_id
                 order_id := entry_order_id
                 details := Details.kv [("filled_price", Val.rat fill_price),
                   ("filled_qty", Val.int filled_qty), ("original_qty", Val.int original_qty),
                   ("remaining_qty", Val.int remaining_qty)] }])

/-- `place_exit_orders(bracket)`: sizes both exit orders to the bracket's
recorded `filled_qty` (falling back to `qty` when no fill quantity was ever
recorded), persists them `PLACED`, transitions the bracket to
`EXIT_ORDERS_PLACED`, publishes the three placement events, and — only when
not paper trading — emits the broker cancel for any unfilled entry remainder
followed by the two broker placements. -/
def placeExitOrders (paper : Bool) (s : Store) (bracket : Bracket) : Store × List Eff :=
  let bracket_id := bracket.bracket_id
  let target_order_id := bracket.target_order_id
  let stoploss_order_id := bracket.stoploss_order_id
  let exit_qty := bracket.filled_qty.getD bracket.qty
  let remaining_qty := bracket.remaining_qty.getD 0
  if exit_qty ≤ 0 then
    (s, [Eff.logError ("Cannot place exit orders for bracket " ++ bracket_id
          ++ ": exit_qty=" ++ toString exit_qty)])
  else
    let exit_side := if bracket.side = "BUY" then "SELL" else "BUY"
    let target_order : ChildOrder :=
      { order_id := target_order_id, bracket_id := bracket_id
        instrument_id := bracket.instrument_id, symbol := bracket.symbol
        exchange := bracket.exchange, side := exit_side, qty := exit_qty
        order_type := "LIMIT", price := some bracket.target_price, trigger_price := none
        state := "PLACED", filled_price := none, filled_qty := none, broker_order_id := none }
    let s := { s with orders := setEntry target_order_id target_order s.orders }
    let stoploss_order : ChildOrder :=
      { order_id := stoploss_order_id, bracket_id := bracket_id
        instrument_id := bracket.instrument_id, symbol := bracket.symbol
        exchange := bracket.exchange, side := exit_side, qty := exit_qty
        order_type := "SL-M", price := none, trigger_price := some bracket.stoploss_price
        state := "PLACED", filled_price := none, filled_qty := none, broker_order_id := none }
    let s := { s with orders := setEntry stoploss_order_id stoploss_order s.orders }
    let warnEffs : List Eff :=
      if remaining_qty > 0 then
        [Eff.logWarning ("Bracket " ++ bracket_id ++ " has partial fill: exit orders placed for "
          ++ toString exit_qty ++ ", but " ++ toString remaining_qty ++ " units remain unfilled")]
      else []
    let s := s.hsetBracket bracket_id (fun b =>
      { b with state := "EXIT_ORDERS_PLACED"
               state_transitions := bracket.state_transitions ++ ["EXIT_ORDERS_PLACED"] })
    let events : List Eff :=
      [Eff.event { event_type := "EXIT_ORDERS_PLACED", bracket_id := bracket_id, order_id := ""
                   details := Details.kv [("target_order_id", Val.str target_order_id),
                     ("stoploss_order_id", Val.str stoploss_order_id),
                     ("exit_qty", Val.int exit_qty), ("remaining_qty", Val.int remaining_qty)] },
       Eff.event { event_type := "TARGET_PLACED", bracket_id := bracket_id
                   order_id := target_order_id, details := Details.ofOrder target_order },
       Eff.event { event_type := "STOPLOSS_PLACED", bracket_id := bracket_id
                   order_id := stoploss_order_id, details := Details.ofOrder stoploss_order }]
    let brokerEffs : List Eff :=
      if paper then []
      else
        (if remaining_qty > 0 then
          [Eff.logInfo ("Cancelling remaining " ++ toString remaining_qty
             ++ " units of entry order for bracket " ++ bracket_id),
           Eff.brokerCmd { command := "CANCEL_ORDER",
                           fields := [("order_id", Val.str bracket.entry_order_id),
                             ("partial_cancel", Val.int 1), ("cancel_qty", Val.int remaining_qty)] }]
         else []) ++
        [Eff.brokerCmd { command := "PLACE_ORDER",
                         fields := [("order_id", Val.str target_order_id),
                           ("instrument_id", Val.str bracket.instrument_id), ("symbol", Val.str bracket.symbol),
                           ("exchange", Val.str bracket.exchange), ("side", Val.str exit_side),
                           ("qty", Val.int exit_qty), ("order_type", Val.str "LIMIT"),
                           ("price", Val.rat bracket.target_price), ("trigger_price", Val.str "")] },
         Eff.brokerCmd { command := "PLACE_ORDER",
                         fields := [("order_id", Val.str stoploss_order_id),
                           ("instrument_id", Val.str bracket.instrument_id), ("symbol", Val.str bracket.symbol),
                           ("exchange", Val.str bracket.exchange), ("side", Val.str exit_side),
                           ("qty", Val.int exit_qty), ("order_type", Val.str "SL-M"),
                           ("price", Val.str ""), ("trigger_price", Val.rat bracket.stoploss_price)] }]
    (s, warnEffs ++ events ++ brokerEffs)

/-- `handle_entry_hit(cmd)`: guarded — a no-op unless the bracket exists and is
still in `ENTRY_PLACED` or `CREATED`; otherwise records the (possibly partial)
fill and immediately places the exit orders on the refetched bracket. -/
def handleEntryHit (paper : Bool) (s : Store) (cmd_bracket_id : Option String)
    (cmd_filled_price : Option ℚ) (cmd_filled_qty : Option Int) : Store × List Eff :=
  match cmd_bracket_id with
  | none => (s, [])
  | some bracket_id =>
    match getEntry bracket_id s.brackets with
    | none => (s, [])
    | some bracket =>
      if bracket.state ≠ "ENTRY_PLACED" ∧ bracket.state ≠ "CREATED" then (s, [])
      else
        let fill_price := cmd_filled_price.getD bracket.entry_price
        let r1 := markEntryFilled s bracket fill_price cmd_filled_qty
        match getEntry bracket_id r1.1.brackets with
        | none => (r1.1, r1.2)
        | some refetched =>
          let r2 := placeExitOrders paper r1.1 refetched
          (r2.1, r1.2 ++ r2.2)

/-- `execute_exit(bracket_id, exit_type, filled_price, filled_qty)`: unguarded
apart from bracket existence — marks the hit exit order `FILLED` (recording
`filled_qty` as the *bracket's* `qty` when the caller supplies none), cancels
the sibling, appends `TARGET_FILLED`/`STOPLOSS_FILLED` then `COMPLETED` to the
transition log, drops the bracket from the three active-index sets, and
publishes the fill event and `BRACKET_COMPLETED`.  Any `exit_type` other than
`"target"` takes the stoploss branch, exactly as the source's `else`. -/
def executeExit (paper : Bool) (s : Store) (bracket_id : String) (exit_type : String)
    (filled_price : Option ℚ) (filled_qty : Option Int) : Store × List Eff :=
  match getEntry bracket_id s.brackets with
  | none => (s, [])
  | some bracket =>
    let filled_order_id := if exit_type = "target" then bracket.target_order_id else bracket.stoploss_order_id
    let cancel_order_id := if exit_type = "target" then bracket.stoploss_order_id else bracket.target_order_id
    let new_bracket_state := if exit_type = "target" then "TARGET_FILLED" else "STOPLOSS_FILLED"
    let event_type := if exit_type = "target" then "TARGET_FILLED" else "STOPLOSS_FILLED"
    let s := s.hsetOrder filled_order_id (fun o =>
      let o := { o with state := "FILLED", filled_qty := some (filled_qty.getD bracket.qty) }
      match filled_price with
      | some p => { o with filled_price := some p }
      | none => o)
    let s := s.hsetOrder cancel_order_id (fun o => { o with state := "CANCELLED" })
    let cancelEffs : List Eff :=
      if paper then []
      else
        [Eff.brokerCmd { command := "CANCEL_ORDER", fields := [("order_id", Val.str cancel_order_id)] },
         Eff.event { event_type := "EXIT_CANCELLED", bracket_id := bracket_id
                     order_id := cancel_order_id, details := Details.kv [] }]
    let st1 := bracket.state_transitions ++ [new_bracket_state]
    let s := s.hsetBracket bracket_id (fun b =>
      { b with state := new_bracket_state, state_transitions := st1 })
    let st2 := st1 ++ ["COMPLETED"]
    let s := s.hsetBracket bracket_id (fun b =>
      { b with state := "COMPLETED", state_transitions := st2 })
    let s := { s with
      activeBrackets := srem bracket_id s.activeBrackets
      activeByInstrument := sremKeyed bracket.instrument_id bracket_id s.activeByInstrument
      activeByStrategy := sremKeyed bracket.strategy_id bracket_id s.activeByStrategy }
    (s, cancelEffs ++
      [Eff.event { event_type := event_type, bracket_id := bracket_id
                   order_id := filled_order_id, details := Details.kv [] },
       Eff.event { event_type := "BRACKET_COMPLETED", bracket_id := bracket_id
                   order_id := "", details := Details.kv [] }])

/-- A parsed `PLACE_BRACKET` command as it reaches `create_bracket` (numeric
fields already cast by `int(...)`/`float(...)`; `request_id` is `""` when the
field is falsy, which makes `send_response` skip the reply). -/
structure PlaceBracketCmd where
  request_id : String
  strategy_id : String
  instrument_id : String
  symbol : String
  exchange : String
  side : String
  qty : Int
  entry_price : ℚ
  target_price : ℚ
  stoploss_price : ℚ
deriving DecidableEq

/-- The four `generate_id()` (uuid4) results `create_bracket` draws, passed as
parameters since uuid generation is nondeterministic. -/
structure NewIds where
  bracket_id : String
  entry_order_id : String
  target_order_id : String
  stoploss_order_id : String
deriving DecidableEq

/-- `create_bracket(cmd)`: persists the bracket in `CREATED` with transition
log `[CREATED]`, persists the entry order `PLACED`, adds the bracket to the
three active-index sets, publishes `BRACKET_CREATED` and `ENTRY_PLACED`, emits
the broker placement when not paper trading, then overwrites the bracket to
`ENTRY_PLACED` with transition log `[CREATED, ENTRY_PLACED]` and responds
success. -/
def createBracket (paper : Bool) (ids : NewIds) (s : Store) (cmd : PlaceBracketCmd) :
    Store × List Eff :=
  let bracket : Bracket :=
    { bracket_id := ids.bracket_id, strategy_id := cmd.strategy_id
      instrument_id := cmd.instrument_id, symbol := cmd.symbol, exchange := cmd.exchange
      side := cmd.side, qty := cmd.qty
      entry_order_id := ids.entry_order_id, target_order_id := ids.target_order_id
      stoploss_order_id := ids.stoploss_order_id
      entry_price := cmd.entry_price, target_price := cmd.target_price
      stoploss_price := cmd.stoploss_price
      filled_entry_price := none, filled_qty := none, remaining_qty := none
      state := "CREATED", state_transitions := ["CREATED"] }
  let s := { s with brackets := setEntry ids.bracket_id bracket s.brackets }
  let entry_order : ChildOrder :=
    { order_id := ids.entry_order_id, bracket_id := ids.bracket_id
      instrument_id := cmd.instrument_id, symbol := cmd.symbol, exchange := cmd.exchange
      side := cmd.side, qty := cmd.qty, order_type := "LIMIT"
      price := some cmd.entry_price, trigger_price := none
      state := "PLACED", filled_price := none, filled_qty := none, broker_order_id := none }
  let s := { s with orders := setEntry ids.entry_order_id entry_order s.orders }
  let s := { s with
    activeBrackets := sadd ids.bracket_id s.activeBrackets
    activeByInstrument := saddKeyed cmd.instrument_id ids.bracket_id s.activeByInstrument
    activeByStrategy := saddKeyed cmd.strategy_id ids.bracket_id s.activeByStrategy }
  let events : List Eff :=
    [Eff.event { event_type := "BRACKET_CREATED", bracket_id := ids.bracket_id
                 order_id := "", details := Details.ofBracket bracket },
     Eff.event { event_type := "ENTRY_PLACED", bracket_id := ids.bracket_id
                 order_id := ids.entry_order_id, details := Details.ofOrder entry_order }]
  let brokerEffs : List Eff :=
    if paper then []
    else
      [Eff.brokerCmd { command := "PLACE_ORDER",
                       fields := [("order_id", Val.str ids.entry_order_id),
                         ("instrument_id", Val.str cmd.instrument_id), ("symbol", Val.str cmd.symbol),
                         ("exchange", Val.str cmd.exchange), ("side", Val.str cmd.side),
                         ("qty", Val.int cmd.qty), ("order_type", Val.str "LIMIT"),
                         ("price", Val.rat cmd.entry_price), ("trigger_price", Val.str "")] }]
  let s := s.hsetBracket ids.bracket_id (fun b =>
    { b with state := "ENTRY_PLACED", state_transitions := ["CREATED", "ENTRY_PLACED"] })
  (s, events ++ brokerEffs
      ++ sendResponse cmd.request_id true "Bracket created" [("bracket_id", Val.str ids.bracket_id)])

/-- An entry of the `order.updates` stream as consumed by `handle_order_update`
(§6). `none` models an absent field or a falsy `""` value; `filled_qty` covers
the source's `filled_qty or filled_quantity` pair and `filled_price` the
`filled_price or average_price` pair. -/
structure OrderUpdate where
  order_id : Option String
  broker_order_id : Option String
  status : Option String
  filled_qty : Option Int
  filled_price : Option ℚ
  status_message : Option String
deriving DecidableEq

/-- `handle_order_update(update)`: resolves the internal order id (maintaining
the `BrokerOrderMapping`), applies the status to the child order, then reacts
on the owning bracket: entry fill → `mark_entry_filled` + `place_exit_orders`;
entry rejection/cancellation → bracket `REJECTED` (note: with *no*
`state_transitions` append), index removal and `BRACKET_REJECTED`; exit fill →
`execute_exit`; exit rejection → `ORDER_REJECTED` event. -/
def handleOrderUpdate (paper : Bool) (s : Store) (update : OrderUpdate) : Store × List Eff :=
  let s := match update.order_id, update.broker_order_id with
    | some oid, some bkid => { s with brokerOrderMapping := setEntry bkid oid s.brokerOrderMapping }
    | _, _ => s
  let resolved_order_id : Option String :=
    match update.order_id with
    | some oid => some oid
    | none =>
      match update.broker_order_id with
      | some bkid => getEntry bkid s.brokerOrderMapping
      | none => none
  match resolved_order_id with
  | none => (s, [Eff.logWarning "Order update missing order_id"])
  | some order_id =>
    match getEntry order_id s.orders with
    | none => (s, [Eff.logWarning ("Order " ++ order_id ++ " not found for update")])
    | some order =>
      let bracket_id := order.bracket_id
      let fetched_bracket : Option Bracket :=
        if bracket_id = "" then none else getEntry bracket_id s.brackets
      let status := pyUpper (update.status.getD "")
      let filled_qty := update.filled_qty
      let filled_price := update.filled_price
      let s := s.hsetOrder order_id (fun o =>
        let o := match update.broker_order_id with
          | some bkid => { o with broker_order_id := some bkid }
          | none => o
        if status = "COMPLETE" ∨ status = "FILLED" then
          let o := { o with state := "FILLED" }
          let o := match filled_qty with
            | some q => { o with filled_qty := some q }
            | none => o
          match filled_price with
          | some p => { o with filled_price := some p }
          | none => o
        else if status = "CANCELLED" ∨ status = "CANCELED" then { o with state := "CANCELLED" }
        else if status = "REJECTED" then { o with state := "REJECTED" }
        else if status = "PLACED" ∨ status = "OPEN" ∨ status = "PENDING"
             ∨ status = "TRIGGER PENDING" then { o with state := "PLACED" }
        else o)
      match fetched_bracket with
      | none => (s, [])
      | some bracket =>
        if order_id = bracket.entry_order_id then
          if status = "COMPLETE" ∨ status = "FILLED" then
            let fill_price := filled_price.getD bracket.entry_price
            let r1 := markEntryFilled s bracket fill_price filled_qty
            match getEntry bracket_id r1.1.brackets with
            | none => (r1.1, r1.2)
            | some refetched =>
              let r2 := placeExitOrders paper r1.1 refetched
              (r2.1, r1.2 ++ r2.2)
          else if status = "REJECTED" ∨ status = "CANCELLED" ∨ status = "CANCELED" then
            let s := s.hsetBracket bracket_id (fun b => { b with state := "REJECTED" })
            let s := { s with
              activeBrackets := srem bracket_id s.activeBrackets
              activeByInstrument := sremKeyed bracket.instrument_id bracket_id s.activeByInstrument
              activeByStrategy := sremKeyed bracket.strategy_id bracket_id s.activeByStrategy }
            (s, [Eff.event { event_type := "BRACKET_REJECTED", bracket_id := bracket_id
                             order_id := order_id
                             details := Details.kv [("status", Val.str status),
                               ("reason", Val.str (update.status_message.getD ""))] }])
          else (s, [])
        else if order_id = bracket.target_order_id ∨ order_id = bracket.stoploss_order_id then
          if status = "COMPLETE" ∨ status = "FILLED" then
            let exit_type := if order_id = bracket.target_order_id then "target" else "stoploss"
            executeExit paper s bracket_id exit_type filled_price filled_qty
          else if status = "REJECTED" then
            (s, [Eff.event { event_type := "ORDER_REJECTED", bracket_id := bracket_id
                             order_id := order_id
                             details := Details.kv [("status", Val.str status),
                               ("reason", Val.str (update.status_message.getD ""))] }])
          else (s, [])
        else (s, [])

/-! ## Command dispatch and the acknowledgment loop -/

/-- The `ENTRY_HIT` / `EXIT_HIT` commands arriving on `state.commands` (the
Execution Engine's two message kinds; the approved client commands dispatch to
`create_bracket` etc. and are modelled separately above). -/
inductive StateCmd where
  | entryHit (bracket_id : Option String) (filled_price : Option ℚ) (filled_qty : Option Int)
  | exitHit (bracket_id : String) (exit_type : String) (filled_price : Option ℚ)
deriving DecidableEq

/-- The `ENTRY_HIT` and `EXIT_HIT` arms of `process_state_command`: note the
`EXIT_HIT` arm passes only `filled_price` to `execute_exit` — the `filled_qty`
parameter is left at its `None` default. -/
def processStateCommand (paper : Bool) (s : Store) (cmd : StateCmd) : Store × List Eff :=
  match cmd with
  | .entryHit bid fp fq => handleEntryHit paper s bid fp fq
  | .exitHit bid et fp => executeExit paper s bid et fp none

/-- Outcome of attempting one message's handler: the handler ran to completion
with its state writes and effects, or raised (a Redis/store I/O failure — the
pure handlers above model the non-raising executions). -/
inductive HandlerOutcome where
  | ok (s : Store) (effs : List Eff)
  | exn (msg : String)

/-- One item of the consumer loop's observable behaviour: a handler side
effect, or an `XACK` of a message id. -/
inductive TraceItem where
  | eff (e : Eff)
  | ack (msg_id : String)
deriving DecidableEq

/-- The per-batch body of `process_state_commands`: for each `(msg_id, cmd)` in
order, attempt the handler inside `try/except` (an exception is logged and
swallowed), then `XACK` the message unconditionally. -/
def processStateCommandsBatch (attempt : String → StateCmd → Store → HandlerOutcome)
    (s : Store) : List (String × StateCmd) → Store × List TraceItem
  | [] => (s, [])
  | (msg_id, cmd) :: rest =>
    let step : Store × List TraceItem :=
      match attempt msg_id cmd s with
      | .ok s2 effs => (s2, effs.map TraceItem.eff)
      | .exn m => (s, [TraceItem.eff (Eff.logError ("Failed to process state command: " ++ m))])
    let tail := processStateCommandsBatch attempt step.1 rest
    (tail.1, step.2 ++ [TraceItem.ack msg_id] ++ tail.2)

/-! ## Risk Manager (`order_03_risk_manager.py`) -/

/-- A command as read by the Risk Manager from `risk.requests`: the numeric
fields carry the result of the source's `int(...)`/`float(...)` casts (`none`
when the cast raises), strings are as on the stream (`""` for absent). -/
structure RiskCmd where
  command : String
  request_id : String
  side : String
  qty : Option Int
  entry_price : Option ℚ
  target_price : Option ℚ
  stoploss_price : Option ℚ
deriving DecidableEq

/-- `validate_risk(cmd)`: returns `""` for approval or the specific rejection
reason; only `PLACE_BRACKET` is checked, everything else passes through. -/
def validateRisk (maxNotional : ℚ) (cmd : RiskCmd) : String :=
  if pyUpper cmd.command ≠ "PLACE_BRACKET" then ""
  else
    match cmd.qty, cmd.entry_price, cmd.target_price, cmd.stoploss_price with
    | some qty, some entry_price, some target_price, some stoploss_price =>
      if qty ≤ 0 ∨ entry_price ≤ 0 ∨ target_price ≤ 0 ∨ stoploss_price ≤ 0 then
        "Prices and qty must be > 0"
      else
        let side := pyUpper cmd.side
        let sideErr :=
          if side = "BUY" then
            if ¬(target_price > entry_price ∧ entry_price > stoploss_price) then
              "Price order invalid for BUY"
            else ""
          else if side = "SELL" then
            if ¬(target_price < entry_price ∧ entry_price < stoploss_price) then
              "Price order invalid for SELL"
            else ""
          else "Invalid side"
        if sideErr ≠ "" then sideErr
        else if (qty : ℚ) * entry_price > maxNotional then "Notional limit exceeded"
        else ""
    | _, _, _, _ => "Invalid numeric fields"

/-- An observable action of the Risk Manager's per-message body. -/
inductive RiskEff where
  | forwarded (cmd : RiskCmd)
  | response (request_id : String) (success : Bool) (message : String)
deriving DecidableEq

/-- The per-message body of `process_risk_requests`: on a validation error,
reply with the reason (skipped when `request_id` is falsy, as in
`send_response`); on approval, `XADD` the command unchanged onto
`state.commands`. -/
def processRiskRequest (maxNotional : ℚ) (cmd : RiskCmd) : List RiskEff :=
  let error := validateRisk maxNotional cmd
  if error ≠ "" then
    if cmd.request_id = "" then [] else [RiskEff.response cmd.request_id false error]
  else [RiskEff.forwarded cmd]

/-! ## Command Validator (`order_02_command_service.py`) -/

/-- A raw command as read by the Command Validator from `api.commands`: every
field is an uninterpreted stream string, `none` when absent. -/
structure ApiCmd where
  command : String
  request_id : Option String
  strategy_id : Option String
  instrument_id : Option String
  side : Option String
  qty : Option String
  entry_price : Option String
  target_price : Option String
  stoploss_price : Option String
  bracket_id : Option String
deriving DecidableEq

/-- `cmd.get(field) in [None, ""]` — the validator's required-field test. -/
def fieldMissing : Option String → Bool
  | none => true
  | some v => v = ""

/-- `validate_command(cmd)`: structural checks only.  For `PLACE_BRACKET` it
requires the seven fields present, the side enum valid and `qty` an integer
`> 0` (`int(...)` modelled by `pyInt`); the three price fields are
checked for *presence only* — their content is never parsed here. -/
def validateCommand (cmd : ApiCmd) : String :=
  let command := pyUpper cmd.command
  if command = "" then "Missing command"
  else if command = "PLACE_BRACKET" then
    if fieldMissing cmd.strategy_id then "Missing field: strategy_id"
    else if fieldMissing cmd.instrument_id then "Missing field: instrument_id"
    else if fieldMissing cmd.side then "Missing field: side"
    else if fieldMissing cmd.qty then "Missing field: qty"
    else if fieldMissing cmd.entry_price then "Missing field: entry_price"
    else if fieldMissing cmd.target_price then "Missing field: target_price"
    else if fieldMissing cmd.stoploss_price then "Missing field: stoploss_price"
    else
      let side := pyUpper (cmd.side.getD "")
      if side ≠ "BUY" ∧ side ≠ "SELL" then "side must be BUY or SELL"
      else
        match pyInt (cmd.qty.getD "") with
        | none => "qty must be an integer"
        | some qty => if qty ≤ 0 then "qty must be > 0" else ""
  else if command = "CANCEL_BRACKET" then
    if fieldMissing cmd.bracket_id then "Missing field: bracket_id" else ""
  else if command = "MODIFY_SL_TP" then
    if fieldMissing cmd.bracket_id then "Missing field: bracket_id"
    else if fieldMissing cmd.target_price ∧ fieldMissing cmd.stoploss_price then
      "Provide target_price or stoploss_price"
    else ""
  else if command = "FORCE_EXIT" then
    if fieldMissing cmd.bracket_id then "Missing field: bracket_id" else ""
  else "Unknown command: " ++ command

/-- An observable action of the Command Validator's per-message body. -/
inductive CmdSvcEff where
  | forwarded (cmd : ApiCmd)
  | response (request_id : String) (success : Bool) (message : String)
deriving DecidableEq

/-- The per-message body of `process_commands`: assign `request_id` (given or a
fresh uuid, so always non-empty), validate, and either reply failure or forward
the command unchanged to `risk.requests`. -/
def processCommand (cmd : ApiCmd) (request_id : String) : List CmdSvcEff :=
  let cmd := { cmd with request_id := some request_id }
  let error := validateCommand cmd
  if error ≠ "" then [CmdSvcEff.response request_id false error]
  else [CmdSvcEff.forwarded cmd]

/-! ## Execution Engine (`order_05_execution_engine.py`) -/

/-- A command the Execution Engine publishes onto `state.commands`.  Neither
constructor carries a `filled_qty`: `publish_exit_hit` / `publish_entry_hit`
only send `command`, `bracket_id`, (`exit_type`,) `filled_price`, `timestamp`. -/
inductive EngineCmd where
  | exitHit (bracket_id : String) (exit_type : String) (filled_price : ℚ)
  | entryHit (bracket_id : String) (filled_price : ℚ)
deriving DecidableEq

/-- The per-bracket body of `evaluate_exits_for_tick`: paper-mode entry
triggering in `ENTRY_PLACED`, and side-aware target/stoploss triggering in
`EXIT_ORDERS_PLACED`, with the target condition checked first (`elif` on
stoploss). -/
def evaluateBracketForTick (paper : Bool) (b : Bracket) (price : ℚ) : List EngineCmd :=
  if b.state = "ENTRY_PLACED" ∧ paper then
    let entry_hit :=
      if b.side = "BUY" then price ≤ b.entry_price
      else if b.side = "SELL" then price ≥ b.entry_price
      else False
    if entry_hit then [EngineCmd.entryHit b.bracket_id price] else []
  else if b.state ≠ "EXIT_ORDERS_PLACED" then []
  else
    let target_hit :=
      if b.side = "BUY" then price ≥ b.target_price
      else if b.side = "SELL" then price ≤ b.target_price
      else False
    let stoploss_hit :=
      if b.side = "BUY" then price ≤ b.stoploss_price
      else if b.side = "SELL" then price ≥ b.stoploss_price
      else False
    if target_hit then [EngineCmd.exitHit b.bracket_id "target" price]
    else if stoploss_hit then [EngineCmd.exitHit b.bracket_id "stoploss" price]
    else []

/-- `evaluate_exits_for_tick(instrument_id, price)`: every bracket indexed
under the tick's instrument is evaluated; missing bracket hashes are skipped. -/
def evaluateExitsForTick (paper : Bool) (s : Store) (instrument_id : String) (price : ℚ) :
    List EngineCmd :=
  ((getEntry instrument_id s.activeByInstrument).getD []).flatMap fun bid =>
    match getEntry bid s.brackets with
    | none => []
    | some b => evaluateBracketForTick paper b price

/-- How a published engine command is consumed by `process_state_command`:
`EXIT_HIT` parses `bracket_id`, `exit_type`, `filled_price`; `ENTRY_HIT` parses
`bracket_id`, `filled_price` and finds no `filled_qty` field. -/
def engineCmdToStateCmd : EngineCmd → StateCmd
  | .exitHit bid et p => .exitHit bid et (some p)
  | .entryHit bid p => .entryHit (some bid) (some p) none

/-! ## Broker Gateway outbound (`order_01_broker_adapter.py`) -/

/-- The `order.updates` entry `place_broker_order` publishes: a `PLACED`
confirmation carrying the broker-assigned id on success, or — when the
broker's synchronous placement call raises — a `REJECTED` update whose
`status_message` is the broker's error text (`str(e)`) and whose
`broker_order_id` is the falsy `""`. -/
def placeBrokerOrderUpdate (outcome : Except String String) (cmd_order_id : String) :
    OrderUpdate :=
  match outcome with
  | .ok broker_order_id =>
    { order_id := some cmd_order_id, broker_order_id := some broker_order_id
      status := some "PLACED", filled_qty := none, filled_price := none, status_message := none }
  | .error e =>
    { order_id := some cmd_order_id, broker_order_id := none
      status := some "REJECTED", filled_qty := none, filled_price := none
      status_message := some e }

/-! ## Helper lemmas -/

/-- The bracket record `mark_entry_filled` persists under `oms:bracket:{id}`. -/
theorem markEntryFilled_brackets (s : Store) (b : Bracket) (fp : ℚ) (aq : Option Int) :
    (markEntryFilled s b fp aq).1.brackets
      = setEntry b.bracket_id
          { (getEntry b.bracket_id s.brackets).getD (Bracket.blank b.bracket_id) with
            state := "ENTRY_FILLED"
            state_transitions := b.state_transitions ++ ["ENTRY_FILLED"]
            filled_entry_price := some fp
            filled_qty := some (aq.getD b.qty)
            remaining_qty := some (b.qty - aq.getD b.qty) } s.brackets := by
  simp [markEntryFilled, Store.hsetBracket, Store.hsetOrder]

@[simp] theorem setEntry_setEntry (k : String) (v1 v2 : β) (l : List (String × β)) :
    setEntry k v2 (setEntry k v1 l) = setEntry k v2 l := by
  induction l with
  | nil => simp [setEntry]
  | cons hd tl ih =>
    obtain ⟨k0, v0⟩ := hd
    by_cases h : k0 = k
    · simp [setEntry, h]
    · simp [setEntry, h, ih]

/-- The bracket record `place_exit_orders` persists (the early error return on
a non-positive exit quantity leaves the store untouched). -/
theorem placeExitOrders_brackets (paper : Bool) (s : Store) (b : Bracket) :
    (placeExitOrders paper s b).1.brackets
      = if b.filled_qty.getD b.qty ≤ 0 then s.brackets
        else setEntry b.bracket_id
          { (getEntry b.bracket_id s.brackets).getD (Bracket.blank b.bracket_id) with
            state := "EXIT_ORDERS_PLACED"
            state_transitions := b.state_transitions ++ ["EXIT_ORDERS_PLACED"] } s.brackets := by
  by_cases hq : b.filled_qty.getD b.qty ≤ 0
  · simp [placeExitOrders, hq]
  · simp [placeExitOrders, hq, Store.hsetBracket]

/-- The bracket record `execute_exit` persists when the bracket exists: the
intermediate `TARGET_FILLED`/`STOPLOSS_FILLED` write is immediately overwritten
by the `COMPLETED` write, and the transition log gains both states. -/
theorem executeExit_brackets (paper : Bool) (s : Store) (bid et : String)
    (fp : Option ℚ) (fq : Option Int) (b : Bracket)
    (hb : getEntry bid s.brackets = some b) :
    (executeExit paper s bid et fp fq).1.brackets
      = setEntry bid
          { b with state := "COMPLETED"
                   state_transitions := b.state_transitions
                     ++ [if et = "target" then "TARGET_FILLED" else "STOPLOSS_FILLED", "COMPLETED"] }
          s.brackets := by
  by_cases het : et = "target" <;>
    simp [executeExit, hb, het, Store.hsetBracket, Store.hsetOrder]

/-- Removing a member from a keyed index set really removes it, whether or not
the key exists. -/
theorem not_mem_sremKeyed_getD (k x : String) (l : List (String × List String)) :
    x ∉ (getEntry k (sremKeyed k x l)).getD [] := by
  unfold sremKeyed
  cases h : getEntry k l with
  | none => simp [h]
  | some s => simp [h, getEntry_setEntry_self]

/-! ## Concrete fixtures

Explicit records used to run the handlers on concrete inputs (witnesses and
counterexamples): the §8 Scenario A/B bracket `BUY 10 @ entry 100 / target 110
/ stop 95`. -/

/-- Scenario A/B bracket, waiting in `ENTRY_PLACED`. -/
def bEntryPlaced : Bracket :=
  { bracket_id := "B1", strategy_id := "S1", instrument_id := "256265"
    symbol := "SBIN", exchange := "NSE", side := "BUY", qty := 10
    entry_order_id := "E1", target_order_id := "T1", stoploss_order_id := "SL1"
    entry_price := 100, target_price := 110, stoploss_price := 95
    filled_entry_price := none, filled_qty := none, remaining_qty := none
    state := "ENTRY_PLACED", state_transitions := ["CREATED", "ENTRY_PLACED"] }

/-- Its entry order as `create_bracket` persists it. -/
def oEntryPlaced : ChildOrder :=
  { order_id := "E1", bracket_id := "B1", instrument_id := "256265"
    symbol := "SBIN", exchange := "NSE", side := "BUY", qty := 10
    order_type := "LIMIT", price := some 100, trigger_price := none
    state := "PLACED", filled_price := none, filled_qty := none, broker_order_id := none }

/-- Store holding the Scenario A/B bracket in `ENTRY_PLACED`. -/
def storeEntryPlaced : Store :=
  { brackets := [("B1", bEntryPlaced)], orders := [("E1", oEntryPlaced)]
    activeBrackets := ["B1"], activeByInstrument := [("256265", ["B1"])]
    activeByStrategy := [("S1", ["B1"])], brokerOrderMapping := [] }

/-! ## Claims -/

/-- C4: once an entry fill is recorded, the persisted bracket satisfies
`filled_qty + remaining_qty = qty`.  First conjunct: this holds for every call
of `mark_entry_filled` — the single recording path, shared by `ENTRY_HIT` and
by broker fill updates, with or without an explicit `filled_qty`.  Second
conjunct: it still holds for the bracket after the full `handle_entry_hit`
flow (which continues into `place_exit_orders`). -/
theorem entry_fill_quantities_sum_to_qty (paper : Bool) (s : Store) (bid : String) (b : Bracket)
    (fp : Option ℚ) (aq : Option Int)
    (hb : getEntry bid s.brackets = some b) (hid : b.bracket_id = bid)
    (hstate : b.state = "ENTRY_PLACED" ∨ b.state = "CREATED") :
    (∀ (s0 : Store) (b0 : Bracket) (fp0 : ℚ) (aq0 : Option Int), ∃ b2 : Bracket,
        getEntry b0.bracket_id (markEntryFilled s0 b0 fp0 aq0).1.brackets = some b2
        ∧ ∃ f r : Int, b2.filled_qty = some f ∧ b2.remaining_qty = some r ∧ f + r = b0.qty)
    ∧ (∃ b2 : Bracket,
        getEntry bid (handleEntryHit paper s (some bid) fp aq).1.brackets = some b2
        ∧ ∃ f r : Int, b2.filled_qty = some f ∧ b2.remaining_qty = some r ∧ f + r = b.qty) := by
  constructor
  · intro s0 b0 fp0 aq0
    rw [markEntryFilled_brackets]
    exact ⟨_, getEntry_setEntry_self _ _ _, _, _, rfl, rfl, by omega⟩
  · have hguard : ¬(b.state ≠ "ENTRY_PLACED" ∧ b.state ≠ "CREATED") := by
      rcases hstate with h | h <;> simp [h]
    rw [handleEntryHit]
    simp only [hb, hguard, if_false, if_neg, not_false_iff]
    rw [markEntryFilled_brackets, hid, hb]
    simp only [Option.getD_some, getEntry_setEntry_self]
    rw [placeExitOrders_brackets, markEntryFilled_brackets, hid, hb]
    simp only [Option.getD_some, getEntry_setEntry_self, setEntry_setEntry]
    by_cases hq : aq.getD b.qty ≤ 0
    · simp only [hq, Option.getD_some, if_true, if_pos]
      refine ⟨_, getEntry_setEntry_self _ _ _,
        aq.getD b.qty, b.qty - aq.getD b.qty, ?_, ?_, by omega⟩
      · rfl
      · rfl
    · simp only [hq, Option.getD_some, if_false, if_neg, not_false_iff, setEntry_setEntry]
      refine ⟨_, getEntry_setEntry_self _ _ _,
        aq.getD b.qty, b.qty - aq.getD b.qty, ?_, ?_, by omega⟩
      · rfl
      · rfl

/-- Witness for C4 at Scenario B: partial fill 6 of 10 at price 100. -/
theorem entry_fill_quantities_sum_to_qty_witness :
    ∃ b2 : Bracket,
      getEntry "B1" (handleEntryHit true storeEntryPlaced (some "B1") (some 100) (some 6)).1.brackets
        = some b2
      ∧ ∃ f r : Int, b2.filled_qty = some f ∧ b2.remaining_qty = some r ∧ f + r = bEntryPlaced.qty :=
  (entry_fill_quantities_sum_to_qty true storeEntryPlaced "B1" bEntryPlaced
    (some 100) (some 6) (by decide) (by decide) (Or.inl (by decide))).2

/-- The Scenario B bracket after a partial entry fill (6 of 10) with exit
orders placed: exit orders are sized at the filled 6. -/
def bExitPlaced : Bracket :=
  { bEntryPlaced with
      filled_entry_price := some 100, filled_qty := some 6, remaining_qty := some 4,
      state := "EXIT_ORDERS_PLACED",
      state_transitions := ["CREATED", "ENTRY_PLACED", "ENTRY_FILLED", "EXIT_ORDERS_PLACED"] }

/-- Its target order, placed for the 6 actually filled units. -/
def oTarget6 : ChildOrder :=
  { order_id := "T1", bracket_id := "B1", instrument_id := "256265"
    symbol := "SBIN", exchange := "NSE", side := "SELL", qty := 6
    order_type := "LIMIT", price := some 110, trigger_price := none
    state := "PLACED", filled_price := none, filled_qty := none, broker_order_id := none }

/-- Its stoploss order, also sized at 6. -/
def oStop6 : ChildOrder :=
  { oTarget6 with
      order_id := "SL1", order_type := "SL-M", price := none, trigger_price := some 95 }

/-- The entry order after the partial fill of 6 at 100. -/
def oEntryFilled6 : ChildOrder :=
  { oEntryPlaced with
      state := "FILLED", filled_price := some 100, filled_qty := some 6 }

/-- Store holding the Scenario B bracket in `EXIT_ORDERS_PLACED`. -/
def storeExitPlaced : Store :=
  { brackets := [("B1", bExitPlaced)]
    orders := [("E1", oEntryFilled6), ("T1", oTarget6), ("SL1", oStop6)]
    activeBrackets := ["B1"], activeByInstrument := [("256265", ["B1"])]
    activeByStrategy := [("S1", ["B1"])], brokerOrderMapping := [] }

/-- C10: an `EXIT_HIT` published by the Execution Engine carries no
`filled_qty` (first conjunct: its translation onto `state.commands` has the
`filled_qty` parameter at `none`), and `execute_exit` then records the filled
exit order's `filled_qty` as the *bracket's* original requested `qty` — so
after a partial entry fill the recorded `filled_qty` exceeds the quantity the
exit order was actually placed for. -/
theorem exit_hit_records_bracket_qty (paper : Bool) (s : Store) (bid et : String) (fp : ℚ)
    (b : Bracket) (o : ChildOrder)
    (hb : getEntry bid s.brackets = some b)
    (hne : b.target_order_id ≠ b.stoploss_order_id)
    (ho : getEntry (if et = "target" then b.target_order_id else b.stoploss_order_id) s.orders
            = some o)
    (hpfill : o.qty < b.qty) :
    engineCmdToStateCmd (EngineCmd.exitHit bid et fp) = StateCmd.exitHit bid et (some fp)
    ∧ ∃ o2 : ChildOrder,
        getEntry (if et = "target" then b.target_order_id else b.stoploss_order_id)
          (processStateCommand paper s (StateCmd.exitHit bid et (some fp))).1.orders = some o2
        ∧ o2.state = "FILLED" ∧ o2.filled_qty = some b.qty ∧ o2.qty = o.qty ∧ o2.qty < b.qty := by
  refine ⟨rfl, ?_⟩
  by_cases het : et = "target"
  · rw [het] at ho ⊢
    simp only [if_true, if_pos] at ho ⊢
    simp [processStateCommand, executeExit, hb, Store.hsetOrder, Store.hsetBracket,
      hne, Ne.symm hne, ho]
    exact hpfill
  · simp only [het, if_false, if_neg, not_false_iff] at ho ⊢
    simp [processStateCommand, executeExit, hb, het, Store.hsetOrder, Store.hsetBracket,
      hne, Ne.symm hne, ho]
    exact hpfill

/-- Witness for C10: Scenario B store, target hit at 111 — the target order
was placed for 6, the recorded `filled_qty` is the bracket's original 10. -/
theorem exit_hit_records_bracket_qty_witness :
    ∃ o2 : ChildOrder,
      getEntry "T1" (processStateCommand true storeExitPlaced
          (StateCmd.exitHit "B1" "target" (some 111))).1.orders = some o2
      ∧ o2.state = "FILLED" ∧ o2.filled_qty = some bExitPlaced.qty
      ∧ o2.qty = oTarget6.qty ∧ o2.qty < bExitPlaced.qty := by
  have h := (exit_hit_records_bracket_qty true storeExitPlaced "B1" "target" 111
    bExitPlaced oTarget6 (by decide) (by decide) (by decide) (by decide)).2
  simpa using h

/-- C8: when the Broker Gateway's live placement call fails, it publishes a
`REJECTED` order update carrying the broker's error text (first two
conjuncts); consuming that update, the State Manager moves the bracket to
`REJECTED`, removes it from all three active-index sets, and publishes
`BRACKET_REJECTED` whose details carry the failure reason. -/
theorem broker_rejection_reaches_rejected_state (paper : Bool) (s : Store)
    (oid bid msg : String) (o : ChildOrder) (b : Bracket)
    (ho : getEntry oid s.orders = some o)
    (hob : o.bracket_id = bid) (hbid : bid ≠ "")
    (hb : getEntry bid s.brackets = some b)
    (hentry : b.entry_order_id = oid) :
    (placeBrokerOrderUpdate (Except.error msg) oid).status = some "REJECTED"
    ∧ (placeBrokerOrderUpdate (Except.error msg) oid).status_message = some msg
    ∧ (∃ b2 : Bracket,
        getEntry bid (handleOrderUpdate paper s (placeBrokerOrderUpdate (Except.error msg) oid)).1.brackets
          = some b2 ∧ b2.state = "REJECTED")
    ∧ bid ∉ (handleOrderUpdate paper s (placeBrokerOrderUpdate (Except.error msg) oid)).1.activeBrackets
    ∧ bid ∉ (getEntry b.instrument_id
        (handleOrderUpdate paper s (placeBrokerOrderUpdate (Except.error msg) oid)).1.activeByInstrument).getD []
    ∧ bid ∉ (getEntry b.strategy_id
        (handleOrderUpdate paper s (placeBrokerOrderUpdate (Except.error msg) oid)).1.activeByStrategy).getD []
    ∧ Eff.event { event_type := "BRACKET_REJECTED", bracket_id := bid, order_id := oid
                  details := Details.kv [("status", Val.str "REJECTED"), ("reason", Val.str msg)] }
        ∈ (handleOrderUpdate paper s (placeBrokerOrderUpdate (Except.error msg) oid)).2 := by
  have hup : pyUpper "REJECTED" = "REJECTED" := by decide
  have hc1 : ("REJECTED" : String) ≠ "COMPLETE" := by decide
  have hc2 : ("REJECTED" : String) ≠ "FILLED" := by decide
  have hc3 : ("REJECTED" : String) ≠ "CANCELLED" := by decide
  have hc4 : ("REJECTED" : String) ≠ "CANCELED" := by decide
  refine ⟨rfl, rfl, ?_⟩
  simp only [handleOrderUpdate, placeBrokerOrderUpdate, ho, hob, hb, hup, hc1, hc2, hc3, hc4,
    hbid, hentry, Store.hsetOrder, Store.hsetBracket, Option.getD_some, if_neg, if_pos,
    not_false_iff, or_self, or_false, false_or, if_true, if_false]
  simp [getEntry_setEntry_self, not_mem_sremKeyed_getD]

/-- Witness for C8: Scenario E on the `ENTRY_PLACED` store, broker error
"Insufficient funds". -/
theorem broker_rejection_reaches_rejected_state_witness :
    (∃ b2 : Bracket,
        getEntry "B1" (handleOrderUpdate false storeEntryPlaced
          (placeBrokerOrderUpdate (Except.error "Insufficient funds") "E1")).1.brackets
          = some b2 ∧ b2.state = "REJECTED")
    ∧ "B1" ∉ (handleOrderUpdate false storeEntryPlaced
        (placeBrokerOrderUpdate (Except.error "Insufficient funds") "E1")).1.activeBrackets
    ∧ Eff.event { event_type := "BRACKET_REJECTED", bracket_id := "B1", order_id := "E1"
                  details := Details.kv [("status", Val.str "REJECTED"),
                    ("reason", Val.str "Insufficient funds")] }
        ∈ (handleOrderUpdate false storeEntryPlaced
            (placeBrokerOrderUpdate (Except.error "Insufficient funds") "E1")).2 := by
  have h := broker_rejection_reaches_rejected_state false storeEntryPlaced "E1" "B1"
    "Insufficient funds" oEntryPlaced bEntryPlaced (by decide) (by decide) (by decide)
    (by decide) (by decide)
  exact ⟨h.2.2.1, h.2.2.2.1, h.2.2.2.2.2.2⟩

/-- `validate_risk` approves a `PLACE_BRACKET` command exactly when all numeric
fields parsed, quantity and prices are strictly positive, the price ordering
matches the side, and the notional fits under the ceiling. -/
theorem validateRisk_eq_empty_iff (maxNotional : ℚ) (cmd : RiskCmd)
    (hcmd : pyUpper cmd.command = "PLACE_BRACKET") :
    validateRisk maxNotional cmd = ""
      ↔ ∃ (q : Int) (ep tp sp : ℚ), cmd.qty = some q ∧ cmd.entry_price = some ep
          ∧ cmd.target_price = some tp ∧ cmd.stoploss_price = some sp
          ∧ 0 < q ∧ 0 < ep ∧ 0 < tp ∧ 0 < sp
          ∧ ((pyUpper cmd.side = "BUY" ∧ sp < ep ∧ ep < tp)
             ∨ (pyUpper cmd.side = "SELL" ∧ tp < ep ∧ ep < sp))
          ∧ (q : ℚ) * ep ≤ maxNotional := by
  have hbs : ("BUY" : String) ≠ "SELL" := by decide
  have e1 : ("Invalid numeric fields" : String) ≠ "" := by decide
  have e2 : ("Prices and qty must be > 0" : String) ≠ "" := by decide
  have e3 : ("Price order invalid for BUY" : String) ≠ "" := by decide
  have e4 : ("Price order invalid for SELL" : String) ≠ "" := by decide
  have e5 : ("Invalid side" : String) ≠ "" := by decide
  have e6 : ("Notional limit exceeded" : String) ≠ "" := by decide
  rcases hq : cmd.qty with _ | q
  · simp [validateRisk, hcmd, hq, e1]
  rcases hep : cmd.entry_price with _ | ep
  · simp [validateRisk, hcmd, hq, hep, e1]
  rcases htp : cmd.target_price with _ | tp
  · simp [validateRisk, hcmd, hq, hep, htp, e1]
  rcases hsp : cmd.stoploss_price with _ | sp
  · simp [validateRisk, hcmd, hq, hep, htp, hsp, e1]
  simp only [validateRisk, hcmd, hq, hep, htp, hsp, ne_eq, not_true, if_false,
    Option.some.injEq]
  by_cases hpos : q ≤ 0 ∨ ep ≤ 0 ∨ tp ≤ 0 ∨ sp ≤ 0
  · refine iff_of_false (by simp [hpos, e2]) ?_
    rintro ⟨q', ep', tp', sp', rfl, rfl, rfl, rfl, hq0, hep0, htp0, hsp0, _, _⟩
    rcases hpos with h | h | h | h
    · omega
    · linarith
    · linarith
    · linarith
  · by_cases hbuy : pyUpper cmd.side = "BUY"
    · by_cases hord : tp > ep ∧ ep > sp
      · by_cases hlim : (q : ℚ) * ep > maxNotional
        · refine iff_of_false (by simp [hpos, hbuy, hord, hlim, e6]) ?_
          rintro ⟨q', ep', tp', sp', rfl, rfl, rfl, rfl, _, _, _, _, _, hle⟩
          linarith
        · refine iff_of_true (by simp [hpos, hbuy, hord, hlim]) ?_
          push_neg at hpos hlim
          exact ⟨q, ep, tp, sp, rfl, rfl, rfl, rfl, hpos.1, hpos.2.1, hpos.2.2.1, hpos.2.2.2,
            Or.inl ⟨hbuy, hord.2, hord.1⟩, hlim⟩
      · refine iff_of_false (by simp [hpos, hbuy, hord, e3]) ?_
        rintro ⟨q', ep', tp', sp', rfl, rfl, rfl, rfl, _, _, _, _, hdisj, _⟩
        rcases hdisj with ⟨_, h1, h2⟩ | ⟨hs, _, _⟩
        · exact hord ⟨h2, h1⟩
        · exact hbs (hbuy.symm.trans hs)
    · by_cases hsell : pyUpper cmd.side = "SELL"
      · by_cases hord : tp < ep ∧ ep < sp
        · by_cases hlim : (q : ℚ) * ep > maxNotional
          · refine iff_of_false (by simp [hpos, hbuy, hsell, hord, hlim, e6]) ?_
            rintro ⟨q', ep', tp', sp', rfl, rfl, rfl, rfl, _, _, _, _, _, hle⟩
            linarith
          · refine iff_of_true (by simp [hpos, hbuy, hsell, hord, hlim]) ?_
            push_neg at hpos hlim
            exact ⟨q, ep, tp, sp, rfl, rfl, rfl, rfl, hpos.1, hpos.2.1, hpos.2.2.1, hpos.2.2.2,
              Or.inr ⟨hsell, hord.1, hord.2⟩, hlim⟩
        · refine iff_of_false (by simp [hpos, hbuy, hsell, hord, e4]) ?_
          rintro ⟨q', ep', tp', sp', rfl, rfl, rfl, rfl, _, _, _, _, hdisj, _⟩
          rcases hdisj with ⟨hs, _, _⟩ | ⟨_, h1, h2⟩
          · exact hbuy hs
          · exact hord ⟨h1, h2⟩
      · refine iff_of_false (by simp [hpos, hbuy, hsell, e5]) ?_
        rintro ⟨q', ep', tp', sp', rfl, rfl, rfl, rfl, _, _, _, _, hdisj, _⟩
        rcases hdisj with ⟨hs, _, _⟩ | ⟨hs, _, _⟩
        · exact hbuy hs
        · exact hsell hs

/-- C2: the Risk Manager forwards a `PLACE_BRACKET` command unchanged to the
State Manager's stream exactly when qty and all three prices are strictly
positive, the ordering matches the side (BUY: target > entry > stoploss;
SELL: target < entry < stoploss), and `qty × entry_price` does not exceed the
ceiling; otherwise it emits exactly one failure response carrying the specific
reason and forwards nothing (so no bracket state is ever created from the
command). -/
theorem risk_manager_forwards_iff (maxNotional : ℚ) (cmd : RiskCmd)
    (hcmd : pyUpper cmd.command = "PLACE_BRACKET") (hreq : cmd.request_id ≠ "") :
    (processRiskRequest maxNotional cmd = [RiskEff.forwarded cmd]
      ↔ ∃ (q : Int) (ep tp sp : ℚ), cmd.qty = some q ∧ cmd.entry_price = some ep
          ∧ cmd.target_price = some tp ∧ cmd.stoploss_price = some sp
          ∧ 0 < q ∧ 0 < ep ∧ 0 < tp ∧ 0 < sp
          ∧ ((pyUpper cmd.side = "BUY" ∧ sp < ep ∧ ep < tp)
             ∨ (pyUpper cmd.side = "SELL" ∧ tp < ep ∧ ep < sp))
          ∧ (q : ℚ) * ep ≤ maxNotional)
    ∧ (processRiskRequest maxNotional cmd ≠ [RiskEff.forwarded cmd] →
        validateRisk maxNotional cmd ≠ ""
        ∧ processRiskRequest maxNotional cmd
            = [RiskEff.response cmd.request_id false (validateRisk maxNotional cmd)]) := by
  have hiff := validateRisk_eq_empty_iff maxNotional cmd hcmd
  by_cases herr : validateRisk maxNotional cmd = ""
  · refine ⟨iff_of_true (by simp [processRiskRequest, herr]) (hiff.mp herr), ?_⟩
    intro hne
    exact absurd (by simp [processRiskRequest, herr]) hne
  · refine ⟨iff_of_false (by simp [processRiskRequest, herr, hreq]) ?_, ?_⟩
    · exact fun hr => herr (hiff.mpr hr)
    · intro _
      exact ⟨herr, by simp [processRiskRequest, herr, hreq]⟩

/-- A well-formed Scenario A `PLACE_BRACKET` command at the Risk Manager. -/
def riskCmdOk : RiskCmd :=
  { command := "PLACE_BRACKET", request_id := "r1", side := "BUY"
    qty := some 10, entry_price := some 100, target_price := some 110
    stoploss_price := some 95 }

/-- Witness for C2: the Scenario A command is forwarded. -/
theorem risk_manager_forwards_iff_witness :
    processRiskRequest 1000000 riskCmdOk = [RiskEff.forwarded riskCmdOk] :=
  (risk_manager_forwards_iff 1000000 riskCmdOk (by decide) (by decide)).1.mpr
    ⟨10, 100, 110, 95, rfl, rfl, rfl, rfl, by decide, by decide, by decide, by decide,
      Or.inl ⟨by decide, by decide, by decide⟩, by norm_num⟩

/-- A raw `PLACE_BRACKET` whose `entry_price` field is present but not a
number. -/
def apiCmdBadPrice : ApiCmd :=
  { command := "PLACE_BRACKET", request_id := none, strategy_id := some "S1"
    instrument_id := some "256265", side := some "BUY", qty := some "10"
    entry_price := some "abc", target_price := some "110", stoploss_price := some "95"
    bracket_id := none }

/-- `apiCmdBadPrice` after the loop body assigns `request_id`. -/
def apiCmdBadPriceR : ApiCmd := { apiCmdBadPrice with request_id := some "r1" }

/-- Counterexample to C9: a `PLACE_BRACKET` whose `entry_price` is the
unparsable string `"abc"` passes `validate_command` and is *forwarded* to the
Risk Manager — no failure response is emitted. -/
theorem validator_forwards_unparsable_price :
    validateCommand apiCmdBadPriceR = ""
    ∧ processCommand apiCmdBadPrice "r1" = [CmdSvcEff.forwarded apiCmdBadPriceR] := by
  decide

/-- C9 (amended): the Command Validator checks the three price fields for
*presence only*; a `PLACE_BRACKET` passes validation and is forwarded exactly
when the seven required fields are present, the side enum is valid, and `qty`
parses to a positive integer — regardless of whether the price contents are
numeric or positive (those checks happen later, in the Risk Manager).  On
validation failure exactly one failure response with the message is emitted
and nothing is forwarded. -/
theorem validator_place_bracket_checks (cmd : ApiCmd) (rid : String)
    (hcmd : pyUpper cmd.command = "PLACE_BRACKET") :
    (validateCommand cmd = ""
      ↔ (fieldMissing cmd.strategy_id = false ∧ fieldMissing cmd.instrument_id = false
         ∧ fieldMissing cmd.side = false ∧ fieldMissing cmd.qty = false
         ∧ fieldMissing cmd.entry_price = false ∧ fieldMissing cmd.target_price = false
         ∧ fieldMissing cmd.stoploss_price = false)
        ∧ (pyUpper (cmd.side.getD "") = "BUY" ∨ pyUpper (cmd.side.getD "") = "SELL")
        ∧ ∃ q : Int, pyInt (cmd.qty.getD "") = some q ∧ 0 < q)
    ∧ (validateCommand cmd ≠ "" →
        processCommand cmd rid = [CmdSvcEff.response rid false (validateCommand cmd)]) := by
  have hne : pyUpper cmd.command ≠ "" := by rw [hcmd]; decide
  have m1 : ("Missing field: strategy_id" : String) ≠ "" := by decide
  have m2 : ("Missing field: instrument_id" : String) ≠ "" := by decide
  have m3 : ("Missing field: side" : String) ≠ "" := by decide
  have m4 : ("Missing field: qty" : String) ≠ "" := by decide
  have m5 : ("Missing field: entry_price" : String) ≠ "" := by decide
  have m6 : ("Missing field: target_price" : String) ≠ "" := by decide
  have m7 : ("Missing field: stoploss_price" : String) ≠ "" := by decide
  have m8 : ("side must be BUY or SELL" : String) ≠ "" := by decide
  have m9 : ("qty must be an integer" : String) ≠ "" := by decide
  have m10 : ("qty must be > 0" : String) ≠ "" := by decide
  have hvr : validateCommand { cmd with request_id := some rid } = validateCommand cmd := rfl
  have hiff : validateCommand cmd = ""
      ↔ (fieldMissing cmd.strategy_id = false ∧ fieldMissing cmd.instrument_id = false
         ∧ fieldMissing cmd.side = false ∧ fieldMissing cmd.qty = false
         ∧ fieldMissing cmd.entry_price = false ∧ fieldMissing cmd.target_price = false
         ∧ fieldMissing cmd.stoploss_price = false)
        ∧ (pyUpper (cmd.side.getD "") = "BUY" ∨ pyUpper (cmd.side.getD "") = "SELL")
        ∧ ∃ q : Int, pyInt (cmd.qty.getD "") = some q ∧ 0 < q := by
    unfold validateCommand
    simp only [hcmd, hne, if_neg, if_pos, if_false, if_true]
    cases h1 : fieldMissing cmd.strategy_id
    · cases h2 : fieldMissing cmd.instrument_id
      · cases h3 : fieldMissing cmd.side
        · cases h4 : fieldMissing cmd.qty
          · cases h5 : fieldMissing cmd.entry_price
            · cases h6 : fieldMissing cmd.target_price
              · cases h7 : fieldMissing cmd.stoploss_price
                · by_cases hside : pyUpper (cmd.side.getD "") = "BUY"
                    ∨ pyUpper (cmd.side.getD "") = "SELL"
                  · have hside' : ¬(pyUpper (cmd.side.getD "") ≠ "BUY"
                        ∧ pyUpper (cmd.side.getD "") ≠ "SELL") := by tauto
                    simp only [hside', if_neg, not_false_iff, if_false]
                    cases hq : pyInt (cmd.qty.getD "") with
                    | none => simp [m9, hside]
                    | some q =>
                      by_cases hq0 : q ≤ 0
                      · simp only [hq0, if_pos, if_true]
                        refine iff_of_false m10 ?_
                        rintro ⟨_, _, q', hq', hq'0⟩
                        injection hq' with h
                        omega
                      · simp only [hq0, if_neg, not_false_iff, if_false]
                        exact iff_of_true rfl ⟨by simp, hside, q, rfl, by omega⟩
                  · have hside' : pyUpper (cmd.side.getD "") ≠ "BUY"
                        ∧ pyUpper (cmd.side.getD "") ≠ "SELL" := by tauto
                    simp [hside', m8, hside]
                · simp [m7]
              · simp [m6]
            · simp [m5]
          · simp [m4]
        · simp [m3]
      · simp [m2]
    · simp [m1]
  refine ⟨hiff, fun herr => ?_⟩
  simp [processCommand, hvr, herr]

/-- Witness for C9 (amended): a fully well-formed `PLACE_BRACKET` passes. -/
theorem validator_place_bracket_checks_witness :
    validateCommand { apiCmdBadPriceR with entry_price := some "100" } = ""
    ∧ ((fieldMissing (some "S1") = false)
       ∧ pyUpper "BUY" = "BUY" ∧ pyInt "10" = some 10 ∧ (0 : Int) < 10) := by
  refine ⟨?_, by decide⟩
  have h := (validator_place_bracket_checks { apiCmdBadPriceR with entry_price := some "100" }
    "r1" (by decide)).1
  exact h.mpr (by decide)

/-- A BUY bracket whose stoploss has been modified above its target
(`MODIFY_SL_TP` re-checks no price ordering), so a tick can satisfy both
crossing conditions at once. -/
def bInvertedExits : Bracket :=
  { bExitPlaced with target_price := 10, stoploss_price := 20 }

/-- Counterexample to C6: at price 15 the stoploss condition `price ≤
stoploss_price` holds for this `EXIT_ORDERS_PLACED` BUY bracket, yet no
stoploss `EXIT_HIT` is emitted — the `elif` gives the target branch
precedence, so only the target `EXIT_HIT` goes out. -/
theorem exit_evaluation_both_conditions_counterexample :
    bInvertedExits.state = "EXIT_ORDERS_PLACED" ∧ bInvertedExits.side = "BUY"
    ∧ (15 : ℚ) ≤ bInvertedExits.stoploss_price
    ∧ evaluateBracketForTick false bInvertedExits 15
        = [EngineCmd.exitHit "B1" "target" 15]
    ∧ EngineCmd.exitHit "B1" "stoploss" 15 ∉ evaluateBracketForTick false bInvertedExits 15 := by
  decide

/-- C6 (amended): for a bracket in `EXIT_ORDERS_PLACED`, a BUY bracket emits a
target `EXIT_HIT` iff price ≥ target_price, and a stoploss `EXIT_HIT` iff
price ≤ stoploss_price *and* the target condition does not hold (the source
checks target first and the stoploss check is an `elif`); a SELL bracket
inverts both comparisons, with the same target precedence.  The emitted
`EXIT_HIT` carries the triggering price and exit type; a bracket in any other
state emits no `EXIT_HIT` at all. -/
theorem exit_evaluation_side_aware (paper : Bool) (b : Bracket) (price : ℚ) :
    (b.state = "EXIT_ORDERS_PLACED" → b.side = "BUY" →
      (EngineCmd.exitHit b.bracket_id "target" price ∈ evaluateBracketForTick paper b price
        ↔ price ≥ b.target_price)
      ∧ (EngineCmd.exitHit b.bracket_id "stoploss" price ∈ evaluateBracketForTick paper b price
        ↔ price ≤ b.stoploss_price ∧ ¬(price ≥ b.target_price)))
    ∧ (b.state = "EXIT_ORDERS_PLACED" → b.side = "SELL" →
      (EngineCmd.exitHit b.bracket_id "target" price ∈ evaluateBracketForTick paper b price
        ↔ price ≤ b.target_price)
      ∧ (EngineCmd.exitHit b.bracket_id "stoploss" price ∈ evaluateBracketForTick paper b price
        ↔ price ≥ b.stoploss_price ∧ ¬(price ≤ b.target_price)))
    ∧ (b.state ≠ "EXIT_ORDERS_PLACED" →
        ∀ (bid et : String) (p : ℚ),
          EngineCmd.exitHit bid et p ∉ evaluateBracketForTick paper b price) := by
  have hs1 : ("EXIT_ORDERS_PLACED" : String) ≠ "ENTRY_PLACED" := by decide
  have hs2 : ("target" : String) ≠ "stoploss" := by decide
  have hs3 : ("BUY" : String) ≠ "SELL" := by decide
  refine ⟨?_, ?_, ?_⟩
  · intro hst hside
    by_cases ht : price ≥ b.target_price
    · by_cases hsl : price ≤ b.stoploss_price <;>
        simp [evaluateBracketForTick, hst, hside, hs1, hs2, ht, hsl]
    · by_cases hsl : price ≤ b.stoploss_price <;>
        simp [evaluateBracketForTick, hst, hside, hs1, hs2, Ne.symm hs2, ht, hsl]
  · intro hst hside
    by_cases ht : price ≤ b.target_price
    · by_cases hsl : price ≥ b.stoploss_price <;>
        simp [evaluateBracketForTick, hst, hside, hs1, hs2, hs3, Ne.symm hs3, ht, hsl]
    · by_cases hsl : price ≥ b.stoploss_price <;>
        simp [evaluateBracketForTick, hst, hside, hs1, hs2, Ne.symm hs2, hs3, Ne.symm hs3, ht, hsl]
  · intro hst bid et p
    by_cases hp : b.state = "ENTRY_PLACED" ∧ paper
    · rw [evaluateBracketForTick, if_pos hp]
      split_ifs <;> simp
    · rw [evaluateBracketForTick, if_neg hp, if_pos]
      · simp
      · simpa using hst

/-- Witness for C6 (amended): Scenario A — a tick at 111 on the
`EXIT_ORDERS_PLACED` BUY bracket emits the target `EXIT_HIT` at price 111. -/
theorem exit_evaluation_side_aware_witness :
    EngineCmd.exitHit "B1" "target" 111 ∈ evaluateBracketForTick false bExitPlaced 111 :=
  ((exit_evaluation_side_aware false bExitPlaced 111).1 (by decide) (by decide)).1.mpr
    (by decide)

/-- The message ids acknowledged along a consumer-loop trace, in order. -/
def acksOf : List TraceItem → List String
  | [] => []
  | TraceItem.ack m :: rest => m :: acksOf rest
  | TraceItem.eff _ :: rest => acksOf rest

theorem acksOf_append (a b : List TraceItem) : acksOf (a ++ b) = acksOf a ++ acksOf b := by
  induction a with
  | nil => rfl
  | cons hd tl ih => cases hd <;> simp [acksOf, ih]

theorem acksOf_effs (effs : List Eff) : acksOf (effs.map TraceItem.eff) = [] := by
  induction effs with
  | nil => rfl
  | cons hd tl ih => simp [acksOf, ih]

/-- Counterexample to C7: a message whose handler raises (e.g. a failed state
write) is logged and *still acknowledged* — the store is untouched but the
trace ends in the `XACK`, so the message will never be redelivered. -/
theorem failed_message_still_acked_counterexample :
    (processStateCommandsBatch (fun _ _ _ => HandlerOutcome.exn "redis write failed")
        storeEntryPlaced [("1694000000-0", StateCmd.exitHit "B1" "target" (some 111))]).2
      = [TraceItem.eff (Eff.logError "Failed to process state command: redis write failed"),
         TraceItem.ack "1694000000-0"]
    ∧ (processStateCommandsBatch (fun _ _ _ => HandlerOutcome.exn "redis write failed")
        storeEntryPlaced [("1694000000-0", StateCmd.exitHit "B1" "target" (some 111))]).1
      = storeEntryPlaced := by
  exact ⟨rfl, rfl⟩

/-- C7 (amended): the State Manager's command loop acknowledges every message
of a batch exactly once, in arrival order, after its processing attempt has
run — but it acknowledges *unconditionally*: a handler that fails to complete
its side effects is caught and logged, and the message is acknowledged all the
same, so it is not redelivered. -/
theorem every_message_acked_exactly_once
    (attempt : String → StateCmd → Store → HandlerOutcome)
    (s : Store) (msgs : List (String × StateCmd)) :
    acksOf (processStateCommandsBatch attempt s msgs).2 = msgs.map Prod.fst := by
  induction msgs generalizing s with
  | nil => rfl
  | cons hd tl ih =>
    obtain ⟨mid, cmd⟩ := hd
    simp only [processStateCommandsBatch]
    cases h : attempt mid cmd s with
    | ok s2 effs =>
      simp [h, acksOf_append, acksOf_effs, acksOf, ih]
    | exn m =>
      simp [h, acksOf_append, acksOf, ih]

/-- The Scenario A/D bracket after its stoploss filled and the bracket
completed. -/
def bCompleted : Bracket :=
  { bExitPlaced with
      state := "COMPLETED",
      state_transitions := ["CREATED", "ENTRY_PLACED", "ENTRY_FILLED", "EXIT_ORDERS_PLACED",
        "STOPLOSS_FILLED", "COMPLETED"] }

/-- Store holding the completed bracket (already out of the active indexes). -/
def storeCompleted : Store :=
  { brackets := [("B1", bCompleted)]
    orders := [("E1", oEntryFilled6),
      ("T1", { oTarget6 with state := "CANCELLED" }),
      ("SL1", { oStop6 with state := "FILLED", filled_price := some 95, filled_qty := some 10 })]
    activeBrackets := [], activeByInstrument := [("256265", [])]
    activeByStrategy := [("S1", [])], brokerOrderMapping := [] }

/-- Counterexample to C1: replaying `EXIT_HIT(stoploss)` against a `COMPLETED`
bracket is *not* a no-op — `execute_exit` has no state guard, so the replay
mutates the store (the transition log gains a duplicate
`STOPLOSS_FILLED, COMPLETED` pair) and publishes a duplicate
`BRACKET_COMPLETED` event. -/
theorem exit_hit_replay_not_idempotent_counterexample :
    bCompleted.state = "COMPLETED"
    ∧ (executeExit true storeCompleted "B1" "stoploss" (some 95) none).1 ≠ storeCompleted
    ∧ Eff.event { event_type := "BRACKET_COMPLETED", bracket_id := "B1", order_id := ""
                  details := Details.kv [] }
        ∈ (executeExit true storeCompleted "B1" "stoploss" (some 95) none).2
    ∧ getEntry "B1" (executeExit true storeCompleted "B1" "stoploss" (some 95) none).1.brackets
        = some { bCompleted with
            state_transitions := bCompleted.state_transitions
              ++ ["STOPLOSS_FILLED", "COMPLETED"] } := by
  decide

/-- C1 (amended): `handle_entry_hit` is guarded — a bracket that is not in
`ENTRY_PLACED`/`CREATED` makes a replayed `ENTRY_HIT` a strict no-op (no store
change, no effect).  `execute_exit`, however, has no such guard: whenever the
bracket exists — whatever its state, `COMPLETED` included — it re-runs its full
effect, appending a fresh `TARGET_FILLED`/`STOPLOSS_FILLED`, `COMPLETED` pair
to the transition log and publishing the exit-fill event and
`BRACKET_COMPLETED` again. -/
theorem entry_guarded_exit_unguarded (paper : Bool) (s : Store) (bid et : String)
    (fp : Option ℚ) (fq : Option Int) (b : Bracket)
    (hb : getEntry bid s.brackets = some b) :
    (b.state ≠ "ENTRY_PLACED" → b.state ≠ "CREATED" →
      handleEntryHit paper s (some bid) fp fq = (s, []))
    ∧ (Eff.event { event_type := "BRACKET_COMPLETED", bracket_id := bid, order_id := ""
                   details := Details.kv [] }
         ∈ (executeExit paper s bid et fp fq).2
       ∧ getEntry bid (executeExit paper s bid et fp fq).1.brackets
           = some { b with
               state := "COMPLETED"
               state_transitions := b.state_transitions
                 ++ [if et = "target" then "TARGET_FILLED" else "STOPLOSS_FILLED",
                     "COMPLETED"] }) := by
  refine ⟨?_, ?_, ?_⟩
  · intro h1 h2
    rw [handleEntryHit]
    simp [hb, h1, h2]
  · by_cases het : et = "target" <;> simp [executeExit, hb, het]
  · rw [executeExit_brackets paper s bid et fp fq b hb]
    exact getEntry_setEntry_self _ _ _

/-- Witness for C1 (amended): replayed `ENTRY_HIT` on the completed bracket is
a no-op, while the replayed `EXIT_HIT` on the very same bracket re-publishes
`BRACKET_COMPLETED`. -/
theorem entry_guarded_exit_unguarded_witness :
    handleEntryHit true storeCompleted (some "B1") (some 100) none = (storeCompleted, [])
    ∧ Eff.event { event_type := "BRACKET_COMPLETED", bracket_id := "B1", order_id := ""
                  details := Details.kv [] }
        ∈ (executeExit true storeCompleted "B1" "stoploss" (some 95) none).2 := by
  have h := entry_guarded_exit_unguarded true storeCompleted "B1" "stoploss"
    (some 95) none bCompleted (by decide)
  refine ⟨?_, h.2.1⟩
  have h0 := entry_guarded_exit_unguarded true storeCompleted "B1" "stoploss"
    (some 100) none bCompleted (by decide)
  exact h0.1 (by decide) (by decide)

/-- The Scenario B bracket right after `mark_entry_filled` (6 of 10 filled),
about to have its exit orders placed. -/
def bEntryFilled : Bracket :=
  { bExitPlaced with
      state := "ENTRY_FILLED",
      state_transitions := ["CREATED", "ENTRY_PLACED", "ENTRY_FILLED"] }

/-- The same bracket with a recorded zero-quantity fill. -/
def bZeroFill : Bracket :=
  { bEntryFilled with filled_qty := some 0, remaining_qty := some 10 }

/-- Store holding the bracket in `ENTRY_FILLED`. -/
def storeEntryFilled : Store :=
  { brackets := [("B1", bEntryFilled)], orders := [("E1", oEntryFilled6)]
    activeBrackets := ["B1"], activeByInstrument := [("256265", ["B1"])]
    activeByStrategy := [("S1", ["B1"])], brokerOrderMapping := [] }

/-- Recognizes `CANCEL_ORDER` broker commands among a handler's effects. -/
def isCancelBrokerCmd : Eff → Bool
  | Eff.brokerCmd c => c.command = "CANCEL_ORDER"
  | _ => false

/-- Counterexample to C3: in paper-trading mode a partial fill (6 of 10,
`remaining_qty = 4 > 0`) places exit orders but issues *no* cancel for the
unfilled remainder (no `CANCEL_ORDER` broker command at all in the effects),
though the warning is logged; and a recorded zero-quantity fill
(`filled_qty = 0 ≤ qty`) creates no exit orders whatsoever — the handler
error-returns. -/
theorem partial_fill_cancel_only_live_counterexample :
    bEntryFilled.filled_qty = some 6 ∧ bEntryFilled.qty = 10
    ∧ (placeExitOrders true storeEntryFilled bEntryFilled).2.filter isCancelBrokerCmd = []
    ∧ Eff.logWarning
        "Bracket B1 has partial fill: exit orders placed for 6, but 4 units remain unfilled"
        ∈ (placeExitOrders true storeEntryFilled bEntryFilled).2
    ∧ (placeExitOrders false storeEntryFilled bZeroFill).1 = storeEntryFilled
    ∧ (placeExitOrders false storeEntryFilled bZeroFill).2
        = [Eff.logError "Cannot place exit orders for bracket B1: exit_qty=0"] := by
  decide

/-- C3 (amended): when an entry fill is recorded with `0 < filled_qty ≤ qty`,
both exit orders are created sized to the *actual filled quantity* (never the
original requested quantity); when `remaining_qty > 0` the partial-fill
warning is logged, and — in live (non-paper) mode only — a `CANCEL_ORDER` for
the unfilled remainder of the entry order is issued (paper mode issues no
broker commands). -/
theorem exit_orders_sized_to_actual_fill (paper : Bool) (s : Store) (b : Bracket) (fq : Int)
    (hfq : b.filled_qty = some fq) (hpos : 0 < fq) (_hqle : fq ≤ b.qty)
    (hrem : b.remaining_qty = some (b.qty - fq))
    (hne : b.target_order_id ≠ b.stoploss_order_id) :
    (∃ ot : ChildOrder, getEntry b.target_order_id (placeExitOrders paper s b).1.orders = some ot
       ∧ ot.qty = fq ∧ ot.state = "PLACED" ∧ ot.order_type = "LIMIT")
    ∧ (∃ os : ChildOrder,
         getEntry b.stoploss_order_id (placeExitOrders paper s b).1.orders = some os
         ∧ os.qty = fq ∧ os.state = "PLACED" ∧ os.order_type = "SL-M")
    ∧ (0 < b.qty - fq →
        Eff.logWarning ("Bracket " ++ b.bracket_id ++ " has partial fill: exit orders placed for "
            ++ toString fq ++ ", but " ++ toString (b.qty - fq) ++ " units remain unfilled")
          ∈ (placeExitOrders paper s b).2
        ∧ (paper = false →
            Eff.brokerCmd { command := "CANCEL_ORDER"
                            fields := [("order_id", Val.str b.entry_order_id),
                              ("partial_cancel", Val.int 1),
                              ("cancel_qty", Val.int (b.qty - fq))] }
              ∈ (placeExitOrders paper s b).2)) := by
  have hq0 : ¬(fq ≤ 0) := not_le.mpr hpos
  refine ⟨?_, ?_, ?_⟩
  · simp [placeExitOrders, hfq, hrem, hq0, hne, Ne.symm hne, Store.hsetBracket]
  · simp [placeExitOrders, hfq, hrem, hq0, hne, Ne.symm hne, Store.hsetBracket]
  · intro hr
    constructor
    · simp [placeExitOrders, hfq, hrem, hq0, hr]
    · intro hpaper
      subst hpaper
      simp [placeExitOrders, hfq, hrem, hq0, hr]

/-- Witness for C3 (amended): Scenario B in live mode — exit orders sized at
6 and the cancel for the remaining 4 issued. -/
theorem exit_orders_sized_to_actual_fill_witness :
    (∃ ot : ChildOrder,
        getEntry "T1" (placeExitOrders false storeEntryFilled bEntryFilled).1.orders = some ot
        ∧ ot.qty = 6 ∧ ot.state = "PLACED" ∧ ot.order_type = "LIMIT")
    ∧ Eff.brokerCmd { command := "CANCEL_ORDER"
                      fields := [("order_id", Val.str "E1"), ("partial_cancel", Val.int 1),
                        ("cancel_qty", Val.int 4)] }
        ∈ (placeExitOrders false storeEntryFilled bEntryFilled).2 := by
  have h := exit_orders_sized_to_actual_fill false storeEntryFilled bEntryFilled 6
    (by decide) (by decide) (by decide) (by decide) (by decide)
  exact ⟨h.1, (h.2.2 (by decide)).2 rfl⟩

/-- The rejection update the Broker Gateway publishes for entry order `E1`. -/
def rejUpdateE1 : OrderUpdate :=
  { order_id := some "E1", broker_order_id := none, status := some "REJECTED"
    filled_qty := none, filled_price := none, status_message := some "Rejected by broker" }

/-- Counterexample to C5: consuming a broker rejection of the entry order
moves the bracket to `REJECTED` but appends *nothing* to `state_transitions` —
the resulting record is the old one with only `state` overwritten, so the
append-only log never contains the REJECTED state the bracket is in. -/
theorem rejected_transition_missing_from_log_counterexample :
    getEntry "B1" (handleOrderUpdate false storeEntryPlaced rejUpdateE1).1.brackets
      = some { bEntryPlaced with state := "REJECTED" }
    ∧ ({ bEntryPlaced with state := "REJECTED" } : Bracket).state = "REJECTED"
    ∧ "REJECTED" ∉ ({ bEntryPlaced with state := "REJECTED" } : Bracket).state_transitions := by
  decide

/-- C5 (amended): the transitions performed by `create_bracket`,
`mark_entry_filled`, `place_exit_orders` and `execute_exit` all append their
new state(s) to the `state_transitions` log — but the `REJECTED` transition in
`handle_order_update` does not: on a broker rejection the bracket record is
updated with only `state := REJECTED`, leaving `state_transitions` exactly as
it was, so the log misses the REJECTED state. -/
theorem transitions_logged_except_rejection (paper : Bool) (s : Store)
    (bid oid msg : String) (o : ChildOrder) (b : Bracket)
    (ho : getEntry oid s.orders = some o) (hob : o.bracket_id = bid) (hbid : bid ≠ "")
    (hb : getEntry bid s.brackets = some b) (hentry : b.entry_order_id = oid) :
    (∀ (paper0 : Bool) (ids : NewIds) (s0 : Store) (cmd : PlaceBracketCmd),
        ∃ b2 : Bracket,
          getEntry ids.bracket_id (createBracket paper0 ids s0 cmd).1.brackets = some b2
          ∧ b2.state = "ENTRY_PLACED" ∧ b2.state_transitions = ["CREATED", "ENTRY_PLACED"])
    ∧ (∀ (s0 : Store) (b0 : Bracket) (fp : ℚ) (aq : Option Int),
        ∃ b2 : Bracket,
          getEntry b0.bracket_id (markEntryFilled s0 b0 fp aq).1.brackets = some b2
          ∧ b2.state_transitions = b0.state_transitions ++ ["ENTRY_FILLED"])
    ∧ (∀ (paper0 : Bool) (s0 : Store) (b0 : Bracket), 0 < b0.filled_qty.getD b0.qty →
        ∃ b2 : Bracket,
          getEntry b0.bracket_id (placeExitOrders paper0 s0 b0).1.brackets = some b2
          ∧ b2.state_transitions = b0.state_transitions ++ ["EXIT_ORDERS_PLACED"])
    ∧ (∀ (paper0 : Bool) (s0 : Store) (bid0 et : String) (fp : Option ℚ) (fq0 : Option Int)
          (b0 : Bracket), getEntry bid0 s0.brackets = some b0 →
        ∃ b2 : Bracket,
          getEntry bid0 (executeExit paper0 s0 bid0 et fp fq0).1.brackets = some b2
          ∧ b2.state_transitions = b0.state_transitions
              ++ [if et = "target" then "TARGET_FILLED" else "STOPLOSS_FILLED", "COMPLETED"])
    ∧ getEntry bid (handleOrderUpdate paper s
          { order_id := some oid, broker_order_id := none, status := some "REJECTED"
            filled_qty := none, filled_price := none, status_message := some msg }).1.brackets
        = some { b with state := "REJECTED" } := by
  refine ⟨?_, ?_, ?_, ?_, ?_⟩
  · intro paper0 ids s0 cmd
    refine ⟨{ bracket_id := ids.bracket_id, strategy_id := cmd.strategy_id
              instrument_id := cmd.instrument_id, symbol := cmd.symbol, exchange := cmd.exchange
              side := cmd.side, qty := cmd.qty, entry_order_id := ids.entry_order_id
              target_order_id := ids.target_order_id, stoploss_order_id := ids.stoploss_order_id
              entry_price := cmd.entry_price, target_price := cmd.target_price
              stoploss_price := cmd.stoploss_price, filled_entry_price := none
              filled_qty := none, remaining_qty := none, state := "ENTRY_PLACED"
              state_transitions := ["CREATED", "ENTRY_PLACED"] }, ?_, rfl, rfl⟩
    simp [createBracket, Store.hsetBracket]
  · intro s0 b0 fp aq
    rw [markEntryFilled_brackets]
    exact ⟨_, getEntry_setEntry_self _ _ _, rfl⟩
  · intro paper0 s0 b0 hq
    rw [placeExitOrders_brackets, if_neg (not_le.mpr hq)]
    exact ⟨_, getEntry_setEntry_self _ _ _, rfl⟩
  · intro paper0 s0 bid0 et fp fq0 b0 hb0
    rw [executeExit_brackets paper0 s0 bid0 et fp fq0 b0 hb0]
    exact ⟨_, getEntry_setEntry_self _ _ _, rfl⟩
  · have hup : pyUpper "REJECTED" = "REJECTED" := by decide
    have hc1 : ("REJECTED" : String) ≠ "COMPLETE" := by decide
    have hc2 : ("REJECTED" : String) ≠ "FILLED" := by decide
    have hc3 : ("REJECTED" : String) ≠ "CANCELLED" := by decide
    have hc4 : ("REJECTED" : String) ≠ "CANCELED" := by decide
    simp only [handleOrderUpdate, ho, hob, hb, hup, hc1, hc2, hc3, hc4, hbid, hentry,
      Store.hsetOrder, Store.hsetBracket, Option.getD_some, if_neg, if_pos, not_false_iff,
      or_self, or_false, false_or, if_true, if_false]
    simp [getEntry_setEntry_self]

/-- Witness for C5 (amended): a freshly created bracket logs
`[CREATED, ENTRY_PLACED]`, while the broker rejection of `E1` leaves the log
without any REJECTED entry. -/
theorem transitions_logged_except_rejection_witness :
    (∃ b2 : Bracket,
        getEntry "B2" (createBracket true
            { bracket_id := "B2", entry_order_id := "E2", target_order_id := "T2"
              stoploss_order_id := "SL2" }
            { brackets := [], orders := [], activeBrackets := [], activeByInstrument := []
              activeByStrategy := [], brokerOrderMapping := [] }
            { request_id := "r1", strategy_id := "S1", instrument_id := "256265"
              symbol := "SBIN", exchange := "NSE", side := "BUY", qty := 10
              entry_price := 100, target_price := 110, stoploss_price := 95 }).1.brackets
          = some b2
        ∧ b2.state = "ENTRY_PLACED" ∧ b2.state_transitions = ["CREATED", "ENTRY_PLACED"])
    ∧ getEntry "B1" (handleOrderUpdate false storeEntryPlaced
          { order_id := some "E1", broker_order_id := none, status := some "REJECTED"
            filled_qty := none, filled_price := none
            status_message := some "Rejected by broker" }).1.brackets
        = some { bEntryPlaced with state := "REJECTED" } := by
  have h := transitions_logged_except_rejection false storeEntryPlaced "B1" "E1"
    "Rejected by broker" oEntryPlaced bEntryPlaced (by decide) (by decide) (by decide)
    (by decide) (by decide)
  exact ⟨h.1 true
    { bracket_id := "B2", entry_order_id := "E2", target_order_id := "T2"
      stoploss_order_id := "SL2" }
    { brackets := [], orders := [], activeBrackets := [], activeByInstrument := []
      activeByStrategy := [], brokerOrderMapping := [] }
    { request_id := "r1", strategy_id := "S1", instrument_id := "256265"
      symbol := "SBIN", exchange := "NSE", side := "BUY", qty := 10
      entry_price := 100, target_price := 110, stoploss_price := 95 }, h.2.2.2.2⟩

end OMS
